import Mathlib

/-!
Shallow embedding of `parquet-probe` (`src/main.rs`): the multi-document
navigation and proportional-layout engine of an interactive parquet page
inspector.  Rust `usize`/`u32` arithmetic is modelled on `Nat` with explicit
reduction modulo `2 ^ 64` / `2 ^ 32` where the source wraps or casts; every
`.expect(..)` call (a process abort on failure) is modelled by returning
`none` from an `Option`-valued function.
-/

namespace ParquetProbe

/-- Modulus of Rust's 64-bit `usize` arithmetic. -/
def USIZE : Nat := 2 ^ 64

/-- Modulus used by the `as u32` casts in the source. -/
def U32 : Nat := 2 ^ 32

/-- Page-level statistics, as used by the source: only the optional null
count is observed (`Statistics::null_count_opt`). -/
structure Statistics where
  null_count_opt : Option Nat
deriving Repr, DecidableEq

/-- The `parquet::column::page::Page` type: the closed tagged union over the three
page kinds.  `buf` is the raw page buffer (a byte sequence); encodings are
modelled by their display strings.  Only the fields the program reads are
carried (`DataPageV2`'s extra fields are never touched by the source). -/
inductive Page where
  | DataPage (buf : List Nat) (num_values : Nat) (encoding : String)
      (def_level_encoding : String) (rep_level_encoding : String)
      (statistics : Option Statistics)
  | DataPageV2 (buf : List Nat) (num_values : Nat) (encoding : String)
  | DictionaryPage (buf : List Nat) (num_values : Nat) (encoding : String)
      (is_sorted : Bool)
deriving Repr, DecidableEq

/-- Projection `Page::buffer()`: the raw buffer of any page variant. -/
def Page.buffer : Page → List Nat
  | .DataPage buf _ _ _ _ _ => buf
  | .DataPageV2 buf _ _ => buf
  | .DictionaryPage buf _ _ _ => buf

/-- Source function `page_stats_text`: renders the null-count summary, always
prefixed by `nulls: `, with `n/a` when no null count is reported. -/
def page_stats_text (stats : Statistics) : String :=
  "nulls: " ++
    (match stats.null_count_opt with
     | some nc => toString nc
     | none => "n/a")

/-- Source function `data_page_text`: the DataPage content line. -/
def data_page_text (page : Page) : String :=
  match page with
  | .DataPage _ num_values encoding _ _ statistics =>
      "DataPage [" ++ encoding ++ "], values:" ++ toString num_values ++
        ", page stats:" ++
        (match statistics with
         | some s => page_stats_text s
         | none => "N/A")
  | _ => "Unexpected Pages Type"

/-- Source function `dict_page_text`: the DictionaryPage content line. -/
def dict_page_text (page : Page) : String :=
  match page with
  | .DictionaryPage _ num_values encoding is_sorted =>
      "DictionaryPage[" ++ encoding ++ "], num_values:" ++ toString num_values ++
        ", sorted:" ++ (if is_sorted then "true" else "false")
  | _ => "Unexpected Pages Type"

/-- Source function `page_text`: dispatch over the page kind (the rendered
paragraph content). -/
def page_text (page : Page) : String :=
  match page with
  | .DataPage _ _ _ _ _ _ => data_page_text page
  | .DataPageV2 _ _ _ => "DataPageV2\n"
  | .DictionaryPage _ _ _ _ => dict_page_text page

/-- The `SerializedFileReader` collaborator: bounds from the file metadata
plus, per (row-group, column) cell, whether the page stream is readable and
which pages it yields.  `get_row_group` fails beyond `numRowGroups`,
`get_column_page_reader` fails beyond `numCols`, and collecting the pages
fails when the cell is unreadable. -/
structure FileReader where
  numRowGroups : Nat
  numCols : Nat
  readable : Nat → Nat → Bool
  pagesAt : Nat → Nat → List Page

/-- One opened file's navigation state (`struct ParqFile`). -/
structure ParqFile where
  path : String
  pages : List Page
  current_row_group : Nat
  current_col : Nat
  reader : FileReader

/-- Source function `ParqFile::get_pages`: chain of three `.expect` calls; `none` models the
process abort when the row group, the column, or the page read fails. -/
def ParqFile.get_pages (reader : FileReader) (row_group_num col_num : Nat) :
    Option (List Page) :=
  if row_group_num < reader.numRowGroups then
    if col_num < reader.numCols then
      if reader.readable row_group_num col_num then
        some (reader.pagesAt row_group_num col_num)
      else none
    else none
  else none

/-- Source method `ParqFile::reload_pages`: refetch `pages` for the current
indices. -/
def ParqFile.reload_pages (pf : ParqFile) : Option ParqFile :=
  match ParqFile.get_pages pf.reader pf.current_row_group pf.current_col with
  | none => none
  | some ps => some { pf with pages := ps }

/-- Source constructor `ParqFile::new`: opening/parsing the file is the `env` oracle (a failure
there is the `File::open`/`try_parse`/`finish` abort); then the pages of row
group 0, column 0 are fetched before any configured index is applied. -/
def ParqFile.new (env : String → Option FileReader) (path : String) :
    Option ParqFile :=
  match env path with
  | none => none
  | some reader =>
    match ParqFile.get_pages reader 0 0 with
    | none => none
    | some pages =>
      some { path := path, pages := pages, current_row_group := 0,
             current_col := 0, reader := reader }

/-- Command-line arguments (`struct Args`). -/
structure Args where
  paths : List String
  row_group : Nat
  column : Nat

/-- The fixed five-palette list built in `App::new`
(`tailwind::{ORANGE, PINK, PURPLE, VIOLET, SKY}`). -/
def app_palettes : List String :=
  ["ORANGE", "PINK", "PURPLE", "VIOLET", "SKY"]

/-- The session state (`struct App`).  `max_col_display_length` is the
global scale: a `u32` in the source. -/
structure App where
  should_exit : Bool
  files : List ParqFile
  args : Args
  palettes : List String
  max_col_display_length : Nat
  focused_file : Nat

/-- Source method `App::recalculate`: `max` over the per-file sums of page buffer lengths,
`.expect`ed (aborts on an empty file list) and cast `as u32`. -/
def App.recalculate (app : App) : Option App :=
  match (app.files.map
      (fun pf => (pf.pages.map (fun page => page.buffer.length)).sum)).max? with
  | none => none
  | some m => some { app with max_col_display_length := m % U32 }

/-- The `args.paths.iter().map(|p| ParqFile::new(p)).collect()` loop of
`App::new`: the first failing open aborts. -/
def openFiles (env : String → Option FileReader) :
    List String → Option (List ParqFile)
  | [] => some []
  | p :: rest =>
    match ParqFile.new env p with
    | none => none
    | some pf =>
      match openFiles env rest with
      | none => none
      | some pfs => some (pf :: pfs)

/-- The `app.files.iter_mut().for_each(..)` loop of `App::new`: set the
configured indices on every file and reload its pages. -/
def reloadAll (rg c : Nat) : List ParqFile → Option (List ParqFile)
  | [] => some []
  | pf :: rest =>
    match ParqFile.reload_pages
        { pf with current_row_group := rg, current_col := c } with
    | none => none
    | some pf2 =>
      match reloadAll rg c rest with
      | none => none
      | some pfs => some (pf2 :: pfs)

/-- Source constructor `App::new`: open every path, apply the configured indices uniformly,
reload each file's pages, then `recalculate`. -/
def App.new (env : String → Option FileReader) (args : Args) : Option App :=
  match openFiles env args.paths with
  | none => none
  | some files0 =>
    match reloadAll args.row_group args.column files0 with
    | none => none
    | some files1 =>
      App.recalculate
        { should_exit := false, files := files1, args := args,
          palettes := app_palettes, max_col_display_length := 0,
          focused_file := 0 }

/-- Key codes observed by `App::handle_events`. -/
inductive KeyCode where
  | Char (c : Char)
  | Esc
  | Up
  | Down
  | Left
  | Right
  | Tab
  | Other
deriving Repr, DecidableEq

/-- Key event kinds (`crossterm::event::KeyEventKind`). -/
inductive KeyEventKind where
  | Press
  | Release
  | Repeat
deriving Repr, DecidableEq

/-- A key event. -/
structure KeyEvent where
  kind : KeyEventKind
  code : KeyCode
deriving Repr, DecidableEq

/-- Source method `App::handle_events` for a key event.  The focused file is indexed first
(`&mut self.files[self.focused_file]`, an abort when out of bounds); the
`+= 1` / `-= 1` on `usize` indices wrap modulo `2 ^ 64` (the release-build
semantics; a debug build aborts at the subtraction itself, so an underflow
is an abort either way once the wrapped index is fetched).  Note the `Right`
branch reloads pages but does not call `recalculate`. -/
def App.handle_events (app : App) (key : KeyEvent) : Option App :=
  match app.files.get? app.focused_file with
  | none => none
  | some pf =>
    if key.kind = .Press ∧ key.code = .Char 'q' then
      some { app with should_exit := true }
    else if key.kind = .Press ∧ key.code = .Esc then
      some { app with should_exit := true }
    else if key.kind = .Press ∧ key.code = .Up then
      match ParqFile.reload_pages
          { pf with current_row_group := (pf.current_row_group + 1) % USIZE } with
      | none => none
      | some pf2 =>
        App.recalculate { app with files := app.files.set app.focused_file pf2 }
    else if key.kind = .Press ∧ key.code = .Down then
      match ParqFile.reload_pages
          { pf with current_row_group :=
              (pf.current_row_group + (USIZE - 1)) % USIZE } with
      | none => none
      | some pf2 =>
        App.recalculate { app with files := app.files.set app.focused_file pf2 }
    else if key.kind = .Press ∧ key.code = .Left then
      match ParqFile.reload_pages
          { pf with current_col := (pf.current_col + (USIZE - 1)) % USIZE } with
      | none => none
      | some pf2 =>
        App.recalculate { app with files := app.files.set app.focused_file pf2 }
    else if key.kind = .Press ∧ key.code = .Right then
      match ParqFile.reload_pages
          { pf with current_col := (pf.current_col + 1) % USIZE } with
      | none => none
      | some pf2 =>
        some { app with files := app.files.set app.focused_file pf2 }
    else if key.kind = .Press ∧ key.code = .Tab then
      some { app with focused_file := (app.focused_file + 1) % app.files.length }
    else
      some app

/-- The fixed label array of `App::draw`: `["A", "B", "C", "D", "E"]`. -/
def labels : List String := ["A", "B", "C", "D", "E"]

/-- One iteration family of `App::draw`: for the `i`-th file the source
indexes `labels[i]` and `self.palettes[i]` (both abort when `i` is out of
bounds, modelled by `none`) and emits a text line built by `f` from the
label and the file. -/
def indexed_lines (f : String → ParqFile → String) (pals : List String) :
    Nat → List ParqFile → Option (List String)
  | _, [] => some []
  | i, pf :: rest =>
    match labels.get? i, pals.get? i with
    | some l, some _ =>
      match indexed_lines f pals (i + 1) rest with
      | none => none
      | some ls => some (f l pf :: ls)
    | _, _ => none

/-- The file-header line of `App::draw`: `File <label>: <path>`. -/
def file_header_line (l : String) (pf : ParqFile) : String :=
  "File " ++ l ++ ": " ++ pf.path

/-- The per-panel title line of `App::draw`. -/
def panel_title_line (l : String) (pf : ParqFile) : String :=
  "   File:" ++ l ++ " Row Group: " ++ toString pf.current_row_group ++
    " Column: " ++ toString pf.current_col ++ " Pages:" ++
    toString pf.pages.length ++ "  "

/-- The text content of `App::draw`: the file-header lines followed by the
panel title lines; `none` models the abort of an out-of-bounds
`labels[i]` / `palettes[i]` access. -/
def App.draw (app : App) : Option (List String × List String) :=
  match indexed_lines file_header_line app.palettes 0 app.files with
  | none => none
  | some hs =>
    match indexed_lines panel_title_line app.palettes 0 app.files with
    | none => none
    | some ps => some (hs, ps)

/-- The constraint list of `App::draw_column`: for each page a
`Ratio(page.buffer().len() as u32, self.max_col_display_length)`
(numerator, denominator) pair. -/
def App.draw_column_constraints (app : App) (pf : ParqFile) :
    List (Nat × Nat) :=
  pf.pages.map (fun page => (page.buffer.length % U32, app.max_col_display_length))

/-- Modelled from the spec's words (claim C5): each page's row ratio is its
exact byte length over the global scale, with no truncation. -/
def draw_column_constraints_claimed (app : App) (pf : ParqFile) :
    List (Nat × Nat) :=
  pf.pages.map (fun page => (page.buffer.length, app.max_col_display_length))

/-- Modelled from the spec's words (claim C7): the claimed page text, where
the DataPage null summary is plain `"n/a"` when statistics are present but
report no null count. -/
def page_text_claimed (page : Page) : String :=
  match page with
  | .DataPage _ num_values encoding _ _ statistics =>
      "DataPage [" ++ encoding ++ "], values:" ++ toString num_values ++
        ", page stats:" ++
        (match statistics with
         | none => "N/A"
         | some s =>
           match s.null_count_opt with
           | some nc => "nulls: " ++ toString nc
           | none => "n/a")
  | .DataPageV2 _ _ _ => "DataPageV2\n"
  | .DictionaryPage _ num_values encoding is_sorted =>
      "DictionaryPage[" ++ encoding ++ "], num_values:" ++ toString num_values ++
        ", sorted:" ++ (if is_sorted then "true" else "false")

/-- The amended page text of claim C7: as `page_text_claimed`, but the null
summary keeps its `"nulls: "` prefix even when no null count is reported. -/
def page_text_amended (page : Page) : String :=
  match page with
  | .DataPage _ num_values encoding _ _ statistics =>
      "DataPage [" ++ encoding ++ "], values:" ++ toString num_values ++
        ", page stats:" ++
        (match statistics with
         | none => "N/A"
         | some s =>
           match s.null_count_opt with
           | some nc => "nulls: " ++ toString nc
           | none => "nulls: n/a")
  | .DataPageV2 _ _ _ => "DataPageV2\n"
  | .DictionaryPage _ num_values encoding is_sorted =>
      "DictionaryPage[" ++ encoding ++ "], num_values:" ++ toString num_values ++
        ", sorted:" ++ (if is_sorted then "true" else "false")

/-- Definition `cycle_focus` (spec §4.2): the effect of the `Tab` branch of
`App::handle_events`. -/
def cycle_focus (app : App) : App :=
  { app with focused_file := (app.focused_file + 1) % app.files.length }

/-! ### Concrete scenario values -/

/-- A page whose buffer holds `n` zero bytes. -/
def pageOfLen (n : Nat) : Page := Page.DataPageV2 (List.replicate n 0) 0 "PLAIN"

/-- A one-row-group, one-column file whose single cell holds three pages of
100, 50 and 50 bytes (the spec's layout scenario). -/
def readerS : FileReader :=
  { numRowGroups := 1, numCols := 1, readable := fun _ _ => true,
    pagesAt := fun _ _ => [pageOfLen 100, pageOfLen 50, pageOfLen 50] }

/-- An environment in which every path opens as `readerS`. -/
def envS : String → Option FileReader := fun _ => some readerS

/-- Arguments: one path, initial row group 0 and column 0. -/
def argsS : Args := { paths := ["a.parquet"], row_group := 0, column := 0 }

/-- The `ParqFile` state for `readerS` after the initial reload. -/
def fileS : ParqFile :=
  { path := "a.parquet",
    pages := [pageOfLen 100, pageOfLen 50, pageOfLen 50],
    current_row_group := 0, current_col := 0, reader := readerS }

/-- The session `App.new envS argsS` produces: one document, scale 200. -/
def appS : App :=
  { should_exit := false, files := [fileS], args := argsS,
    palettes := app_palettes, max_col_display_length := 200,
    focused_file := 0 }

/-- A one-row-group, two-column file: column 0 has one 100-byte page,
column 1 one 50-byte page. -/
def reader1 : FileReader :=
  { numRowGroups := 1, numCols := 2, readable := fun _ _ => true,
    pagesAt := fun _ c => if c = 0 then [pageOfLen 100] else [pageOfLen 50] }

/-- An environment in which every path opens as `reader1`. -/
def env1 : String → Option FileReader := fun _ => some reader1

/-- The `ParqFile` state for `reader1` at row group 0, column 0. -/
def file1 : ParqFile :=
  { path := "b.parquet", pages := [pageOfLen 100],
    current_row_group := 0, current_col := 0, reader := reader1 }

/-- The session `App.new env1 ⟨["b.parquet"], 0, 0⟩` produces: scale 100. -/
def app1 : App :=
  { should_exit := false, files := [file1],
    args := { paths := ["b.parquet"], row_group := 0, column := 0 },
    palettes := app_palettes, max_col_display_length := 100,
    focused_file := 0 }

/-- A document holding a single page of `2 ^ 32` bytes. -/
def fileBig : ParqFile :=
  { path := "big.parquet", pages := [pageOfLen U32],
    current_row_group := 0, current_col := 0, reader := readerS }

/-- A session over `fileBig` (scale not yet recomputed). -/
def appBig : App :=
  { should_exit := false, files := [fileBig], args := argsS,
    palettes := app_palettes, max_col_display_length := 0,
    focused_file := 0 }

/-- A document holding a single page of `2 ^ 32 + 100` bytes. -/
def fileHuge : ParqFile :=
  { path := "huge.parquet", pages := [pageOfLen (U32 + 100)],
    current_row_group := 0, current_col := 0, reader := readerS }

/-- A session over `fileHuge` with scale 100 (what `recalculate` yields). -/
def appHuge : App :=
  { should_exit := false, files := [fileHuge], args := argsS,
    palettes := app_palettes, max_col_display_length := 100,
    focused_file := 0 }

/-- A placeholder document used to populate multi-file sessions. -/
def mkFile (p : String) : ParqFile :=
  { path := p, pages := [], current_row_group := 0, current_col := 0,
    reader := readerS }

/-- A session with six opened files. -/
def app6 : App :=
  { should_exit := false,
    files := [mkFile "a", mkFile "b", mkFile "c", mkFile "d", mkFile "e",
      mkFile "f"],
    args := argsS, palettes := app_palettes, max_col_display_length := 1,
    focused_file := 0 }

/-- A DataPage with statistics present but no null count reported. -/
def pgX : Page :=
  Page.DataPage [] 10 "PLAIN" "RLE" "RLE" (some { null_count_opt := none })

/-- A two-row-group file whose row group 0 is unreadable (its page stream
fails to decode) while row group 1 is readable. -/
def reader0 : FileReader :=
  { numRowGroups := 2, numCols := 1, readable := fun rg _ => rg == 1,
    pagesAt := fun _ _ => [pageOfLen 10] }

/-- An environment in which every path opens as `reader0`. -/
def env0 : String → Option FileReader := fun _ => some reader0

/-- A session whose document list is empty. -/
def appE : App :=
  { should_exit := false, files := [], args := argsS,
    palettes := app_palettes, max_col_display_length := 0,
    focused_file := 0 }

/-! ### Helper lemmas -/

/-- The list `labels` has an entry at every index below 5. -/
lemma labels_get_of_lt (i : Nat) (h : i < 5) : ∃ l, labels.get? i = some l := by
  interval_cases i <;> exact ⟨_, rfl⟩

/-- The list `labels` has no entry at indices 5 and beyond. -/
lemma labels_get_of_ge (i : Nat) (h : 5 ≤ i) : labels.get? i = none := by
  apply List.get?_eq_none.mpr
  simpa [labels] using h

/-- The list `app_palettes` has an entry at every index below 5. -/
lemma app_palettes_get_of_lt (i : Nat) (h : i < 5) :
    ∃ p, app_palettes.get? i = some p := by
  interval_cases i <;> exact ⟨_, rfl⟩

/-- The list `app_palettes` has no entry at indices 5 and beyond. -/
lemma app_palettes_get_of_ge (i : Nat) (h : 5 ≤ i) :
    app_palettes.get? i = none := by
  apply List.get?_eq_none.mpr
  simpa [app_palettes] using h

/-- When all indices fit below 5, the draw loop succeeds. -/
lemma indexed_lines_isSome (f : String → ParqFile → String) :
    ∀ (fs : List ParqFile) (i : Nat), i + fs.length ≤ 5 →
      (indexed_lines f app_palettes i fs).isSome = true := by
  intro fs
  induction fs with
  | nil => intro i _; rfl
  | cons pf rest ih =>
    intro i hi
    have hi5 : i < 5 := by simp only [List.length_cons] at hi; omega
    obtain ⟨l, hl⟩ := labels_get_of_lt i hi5
    obtain ⟨p, hp⟩ := app_palettes_get_of_lt i hi5
    have hrest : i + 1 + rest.length ≤ 5 := by
      simp only [List.length_cons] at hi; omega
    obtain ⟨ls, hls⟩ := Option.isSome_iff_exists.mp (ih (i + 1) hrest)
    simp only [indexed_lines, hl, hp, hls, Option.isSome_some]

/-- As soon as some index reaches 5, the draw loop aborts. -/
lemma indexed_lines_eq_none (f : String → ParqFile → String) :
    ∀ (fs : List ParqFile) (i : Nat), fs ≠ [] → 5 < i + fs.length →
      indexed_lines f app_palettes i fs = none := by
  intro fs
  induction fs with
  | nil => intro i h _; exact absurd rfl h
  | cons pf rest ih =>
    intro i _ hi
    by_cases h5 : i < 5
    · obtain ⟨l, hl⟩ := labels_get_of_lt i h5
      obtain ⟨p, hp⟩ := app_palettes_get_of_lt i h5
      have hne : rest ≠ [] := by
        intro hr
        rw [hr] at hi
        simp only [List.length_cons, List.length_nil] at hi
        omega
      have hlt : 5 < i + 1 + rest.length := by
        simp only [List.length_cons] at hi; omega
      simp only [indexed_lines, hl, hp, ih (i + 1) hne hlt]
    · have hge : 5 ≤ i := Nat.le_of_not_lt h5
      simp only [indexed_lines, labels_get_of_ge i hge,
        app_palettes_get_of_ge i hge]

/-- The constraint list of a single-page document, unfolded. -/
lemma draw_cc_single (app : App) (path : String) (pg : Page) (rg c : Nat)
    (rd : FileReader) :
    App.draw_column_constraints app
      { path := path, pages := [pg], current_row_group := rg,
        current_col := c, reader := rd } =
      [(pg.buffer.length % U32, app.max_col_display_length)] := rfl

/-- A page built by `pageOfLen n` has byte length `n`. -/
lemma pageOfLen_buffer_length (n : Nat) : (pageOfLen n).buffer.length = n := by
  simp [pageOfLen, Page.buffer]

/-- Iterating `cycle_focus` leaves the file list unchanged and advances the
focused index by the iteration count, modulo the number of files. -/
lemma cycle_focus_iterate (app : App)
    (hf : app.focused_file < app.files.length) (k : Nat) :
    (cycle_focus^[k] app).files = app.files ∧
      (cycle_focus^[k] app).focused_file =
        (app.focused_file + k) % app.files.length := by
  induction k with
  | zero =>
    simp [Nat.mod_eq_of_lt hf]
  | succ k ih =>
    obtain ⟨hfi, hfo⟩ := ih
    rw [Function.iterate_succ_apply']
    refine ⟨by simp [cycle_focus, hfi], ?_⟩
    show ((cycle_focus^[k] app).focused_file + 1) %
        (cycle_focus^[k] app).files.length = _
    rw [hfi, hfo, Nat.mod_add_mod, Nat.add_assoc]

/-! ### Claim theorems -/

/-- C1: the claim says every row_group/column key press triggers both a page
refresh and a scale recomputation, so afterwards the scale equals the
maximum document total.  The code's `Right` branch reloads pages but skips
`recalculate`: from the reachable session `app1` (scale 100), a `Right`
press moves to column 1 (total 50) yet leaves the scale at 100 ≠ 50. -/
theorem right_key_skips_recalculate :
    App.new env1 { paths := ["b.parquet"], row_group := 0, column := 0 } =
      some app1 ∧
    (App.handle_events app1 { kind := .Press, code := .Right }).map
        (fun a => (a.max_col_display_length,
          (a.files.map
            (fun pf => (pf.pages.map (fun p => p.buffer.length)).sum)).max?)) =
      some (100, some 50) ∧
    (100 : Nat) ≠ 50 :=
  ⟨rfl, rfl, by decide⟩

/-- C2: the claim says a down-key press with `row_group = 0` is a clamped
no-op.  In the code `current_row_group -= 1` underflows (wrapping to
`2 ^ 64 - 1` in a release build, aborting outright in a debug build) and the
subsequent `get_row_group(...).expect` aborts: the handler crashes instead
of being a no-op. -/
theorem down_at_zero_aborts :
    App.handle_events app1 { kind := .Press, code := .Down } = none ∧
    app1.files.map ParqFile.current_row_group = [0] :=
  ⟨rfl, rfl⟩

/-- C3: the claim says a failed refresh surfaces a recoverable error,
keeps the previous pages and indices, and lets the loop continue.  In the
code every failure inside `ParqFile::get_pages` hits an `.expect`, which
aborts the process: pressing `Up` past the last row group of `app1`
(a one-row-group file) crashes instead of recovering. -/
theorem refresh_failure_aborts :
    App.handle_events app1 { kind := .Press, code := .Up } = none :=
  rfl

/-- C4 counterexample: `recalculate` casts the maximum to `u32`.  For a
document with a single `2 ^ 32`-byte page the true maximum of the document
totals is `2 ^ 32`, but the stored scale is `2 ^ 32 % 2 ^ 32 = 0`. -/
theorem recalculate_truncates_counterexample :
    (App.recalculate appBig).map (fun a => a.max_col_display_length) =
      some 0 ∧
    (appBig.files.map
      (fun pf => (pf.pages.map (fun p => p.buffer.length)).sum)).max? =
      some U32 ∧
    (0 : Nat) ≠ U32 := by
  have hmax : (appBig.files.map
      (fun pf => (pf.pages.map (fun p => p.buffer.length)).sum)).max? =
      some U32 := by
    simp [appBig, fileBig, pageOfLen, Page.buffer, List.max?]
  refine ⟨?_, hmax, by decide⟩
  simp [App.recalculate, hmax, Nat.mod_self]

/-- C4 (amended): for every non-empty document list, `recalculate` stores
the maximum of the per-document sums of page byte lengths, reduced modulo
`2 ^ 32` (the `as u32` cast); in particular it stores the exact maximum
whenever that maximum fits in 32 bits. -/
theorem recalculate_eq_max_mod (app : App) (h : app.files ≠ []) :
    ∃ m, (app.files.map
        (fun pf => (pf.pages.map (fun p => p.buffer.length)).sum)).max? =
        some m ∧
      App.recalculate app =
        some { app with max_col_display_length := m % U32 } := by
  obtain ⟨pf, fs, hfs⟩ := List.exists_cons_of_ne_nil h
  refine ⟨(fs.map
      (fun pf => (pf.pages.map (fun p => p.buffer.length)).sum)).foldl
        max ((pf.pages.map (fun p => p.buffer.length)).sum), ?_, ?_⟩
  · rw [hfs]
    rfl
  · simp only [App.recalculate]
    rw [hfs]
    rfl

/-- C4 witness: `recalculate` on the concrete session `appS`. -/
theorem recalculate_eq_max_mod_witness :
    ∃ m, (appS.files.map
        (fun pf => (pf.pages.map (fun p => p.buffer.length)).sum)).max? =
        some m ∧
      App.recalculate appS =
        some { appS with max_col_display_length := m % U32 } :=
  recalculate_eq_max_mod appS (by simp [appS])

/-- C5 counterexample: `draw_column` casts each page byte length to `u32`
before forming the `Ratio` constraint, so for a `2 ^ 32 + 100`-byte page the
assigned ratio numerator is 100, not the page's byte length: the row height
is not proportional to byte length over the global scale. -/
theorem draw_column_truncates_counterexample :
    App.draw_column_constraints appHuge fileHuge ≠
      draw_column_constraints_claimed appHuge fileHuge := by
  have h1 : App.draw_column_constraints appHuge fileHuge = [(100, 100)] := by
    have hfh : App.draw_column_constraints appHuge fileHuge =
        [((pageOfLen (U32 + 100)).buffer.length % U32,
          appHuge.max_col_display_length)] :=
      draw_cc_single appHuge _ _ _ _ _
    rw [hfh, pageOfLen_buffer_length, Nat.add_mod_left]
    norm_num [U32, appHuge]
  have h2 : draw_column_constraints_claimed appHuge fileHuge =
      [(U32 + 100, 100)] := by
    have hfh : draw_column_constraints_claimed appHuge fileHuge =
        [((pageOfLen (U32 + 100)).buffer.length,
          appHuge.max_col_display_length)] := rfl
    rw [hfh, pageOfLen_buffer_length]
    norm_num [appHuge]
  rw [h1, h2]
  have hU : 0 < U32 := by norm_num [U32]
  simp only [ne_eq, List.cons.injEq, Prod.mk.injEq, and_true, not_and]
  omega

/-- C5 (amended): each page's row constraint is the `Ratio` of its byte
length truncated to `u32` over the global scale, which agrees with the
claimed exact proportionality whenever every byte length fits in 32 bits;
in particular the spec scenario (one file, pages of 100/50/50 bytes) yields
the ratios 100:50:50 over a global scale of 200. -/
theorem draw_column_proportional (app : App) (pf : ParqFile)
    (h : ∀ p ∈ pf.pages, p.buffer.length < U32) :
    App.draw_column_constraints app pf =
      draw_column_constraints_claimed app pf ∧
    App.new envS argsS = some appS ∧
    appS.max_col_display_length = 200 ∧
    App.draw_column_constraints appS fileS =
      [(100, 200), (50, 200), (50, 200)] := by
  refine ⟨?_, rfl, rfl, rfl⟩
  simp only [App.draw_column_constraints, draw_column_constraints_claimed]
  apply List.map_congr_left
  intro p hp
  rw [Nat.mod_eq_of_lt (h p hp)]

/-- C5 witness: the proportionality statement at the concrete session
`appS` / document `fileS`. -/
theorem draw_column_proportional_witness :
    App.draw_column_constraints appS fileS =
      draw_column_constraints_claimed appS fileS ∧
    App.new envS argsS = some appS ∧
    appS.max_col_display_length = 200 ∧
    App.draw_column_constraints appS fileS =
      [(100, 200), (50, 200), (50, 200)] :=
  draw_column_proportional appS fileS (by decide)

/-- C6: a `Tab` press advances the focused index to
`(focused + 1) % len(files)`; iterating the cycle `len(files)` times
returns focus to the original document, the cycle wraps from the last
document to the first, and it is a no-op for a single-document session. -/
theorem cycle_focus_correct (app : App)
    (hf : app.focused_file < app.files.length) :
    App.handle_events app { kind := .Press, code := .Tab } =
      some (cycle_focus app) ∧
    (cycle_focus app).focused_file =
      (app.focused_file + 1) % app.files.length ∧
    (cycle_focus^[app.files.length] app).focused_file = app.focused_file ∧
    (app.focused_file = app.files.length - 1 →
      (cycle_focus app).focused_file = 0) ∧
    (app.files.length = 1 → cycle_focus app = app) := by
  have h0 : 0 < app.files.length := Nat.lt_of_le_of_lt (Nat.zero_le _) hf
  refine ⟨?_, rfl, ?_, ?_, ?_⟩
  · simp only [App.handle_events, List.get?_eq_get hf]
    simp [cycle_focus]
  · rw [(cycle_focus_iterate app hf app.files.length).2,
      Nat.add_mod_right, Nat.mod_eq_of_lt hf]
  · intro hlast
    show (app.focused_file + 1) % app.files.length = 0
    rw [hlast, Nat.sub_add_cancel h0, Nat.mod_self]
  · intro h1
    have hf0 : app.focused_file = 0 := by omega
    cases app with
    | mk se fs ar pa mc fo =>
      simp only [cycle_focus, App.mk.injEq, and_true, true_and]
      simp only at h1 hf0
      rw [h1, hf0]

/-- C6 witness: the cycle-focus statement at the concrete session `appS`
(a single-document session). -/
theorem cycle_focus_correct_witness :
    App.handle_events appS { kind := .Press, code := .Tab } =
      some (cycle_focus appS) ∧
    (cycle_focus appS).focused_file =
      (appS.focused_file + 1) % appS.files.length ∧
    (cycle_focus^[appS.files.length] appS).focused_file =
      appS.focused_file ∧
    (appS.focused_file = appS.files.length - 1 →
      (cycle_focus appS).focused_file = 0) ∧
    (appS.files.length = 1 → cycle_focus appS = appS) :=
  cycle_focus_correct appS (by decide)

/-- C7 counterexample: for a DataPage whose statistics are present but
report no null count, the code renders `page stats:nulls: n/a`, not the
claimed `page stats:n/a`. -/
theorem page_text_claim_counterexample :
    page_text pgX ≠ page_text_claimed pgX ∧
    page_text pgX = "DataPage [PLAIN], values:10, page stats:nulls: n/a" ∧
    page_text_claimed pgX = "DataPage [PLAIN], values:10, page stats:n/a" :=
  ⟨by decide, by decide, by decide⟩

/-- C7 (amended): the page text is exactly as claimed except that when
statistics are present but report no null count the summary is
`"nulls: n/a"` (keeping the `nulls: ` prefix) rather than `"n/a"`. -/
theorem page_text_matches_amended (p : Page) :
    page_text p = page_text_amended p := by
  cases p with
  | DataPage buf nv enc dle rle stats =>
    cases stats with
    | none => rfl
    | some s =>
      obtain ⟨nco⟩ := s
      cases nco <;> rfl
  | DataPageV2 buf nv enc => rfl
  | DictionaryPage buf nv enc srt => rfl

/-- C8: `ParqFile::new` fetches the pages of row group 0, column 0 before
the configured indices are applied, so startup aborts whenever that cell is
unreadable — even when the configured `(row_group, column)` pair is
perfectly readable for the same file. -/
theorem startup_requires_cell_zero (env : String → Option FileReader)
    (path : String) (reader : FileReader) (rg c : Nat)
    (henv : env path = some reader)
    (h00 : ParqFile.get_pages reader 0 0 = none)
    (_hvalid : (ParqFile.get_pages reader rg c).isSome = true) :
    ParqFile.new env path = none ∧
    App.new env { paths := [path], row_group := rg, column := c } = none := by
  have hnew : ParqFile.new env path = none := by
    simp only [ParqFile.new, henv, h00]
  refine ⟨hnew, ?_⟩
  simp only [App.new, openFiles, hnew]

/-- C8 witness: a two-row-group file whose row group 0 is unreadable while
row group 1 is readable; startup with configured indices (1, 0) aborts. -/
theorem startup_requires_cell_zero_witness :
    ParqFile.new env0 "c.parquet" = none ∧
    App.new env0 { paths := ["c.parquet"], row_group := 1, column := 0 } =
      none :=
  startup_requires_cell_zero env0 "c.parquet" reader0 1 0 rfl rfl rfl

/-- C9: drawing a frame indexes the fixed 5-element label array and the
5-element palette list once per opened file, so a session with more than 5
files aborts on the out-of-bounds access, while any session with at most 5
files draws successfully: the program supports at most 5 open files. -/
theorem draw_supports_at_most_five (app : App)
    (hpal : app.palettes = app_palettes) :
    (5 < app.files.length → App.draw app = none) ∧
    (app.files.length ≤ 5 → (App.draw app).isSome = true) := by
  constructor
  · intro h5
    have hne : app.files ≠ [] := by
      intro h
      rw [h] at h5
      simp at h5
    have h := indexed_lines_eq_none file_header_line app.files 0 hne
      (by omega)
    simp only [App.draw, hpal, h]
  · intro h5
    obtain ⟨hs, hhs⟩ := Option.isSome_iff_exists.mp
      (indexed_lines_isSome file_header_line app.files 0 (by omega))
    obtain ⟨ps, hps⟩ := Option.isSome_iff_exists.mp
      (indexed_lines_isSome panel_title_line app.files 0 (by omega))
    simp only [App.draw, hpal, hhs, hps, Option.isSome_some]

/-- C9 witness: drawing aborts on the six-file session `app6` and succeeds
on the one-file session `appS`. -/
theorem draw_supports_at_most_five_witness :
    App.draw app6 = none ∧ (App.draw appS).isSome = true :=
  ⟨(draw_supports_at_most_five app6 rfl).1 (by decide),
   (draw_supports_at_most_five appS rfl).2 (by decide)⟩

/-- C10: with an empty path list `App::new` aborts: `recalculate` takes the
maximum over an empty sequence of document totals and `.expect`s the
resulting `None`; `recalculate` aborts on any session whose document list
is empty. -/
theorem empty_paths_aborts (env : String → Option FileReader) (rg c : Nat)
    (app : App) (h : app.files = []) :
    App.new env { paths := [], row_group := rg, column := c } = none ∧
    App.recalculate app = none := by
  refine ⟨rfl, ?_⟩
  simp only [App.recalculate, h, List.map_nil]
  rfl

/-- C10 witness: startup with no paths under the concrete environment
`envS`, and `recalculate` on the concrete empty session `appE`. -/
theorem empty_paths_aborts_witness :
    App.new envS { paths := [], row_group := 0, column := 0 } = none ∧
    App.recalculate appE = none :=
  empty_paths_aborts envS 0 0 appE rfl

end ParquetProbe
